import Mathlib

/-!
Verification development for the Maternal Health Tracking System.

Modelling conventions (shallow embedding of the TypeScript source):
* TS `number` fields are modelled as `Rat` (exact rationals; the source never
  relies on float rounding in the validation / risk logic, which only compares
  and never does arithmetic on these fields).
* TS `bigint` timestamps are modelled as `Int` (nanoseconds since epoch).
* `x | null`, `field?` and possibly-absent JSON request fields are `Option`.
* The object-spread idiom `{ defaults..., ...req.body }` is modelled by
  `Option.getD`: a field present in the request body overrides the default.
* The five `StableBTreeMap` collections are association lists keyed by
  `String`; `insert` overwrites any previous binding at the same key.
* The JavaScript double-precision arithmetic used by the timestamp
  serialization layer (`Number(bigint)`, float division, `Date` truncation)
  is modelled exactly with rationals and round-to-nearest-ties-to-even.

The repository holds two variants of the service: `src/unnamed/part_000`
(v1.0.0, with the risk-assessment engine and alert creation) and
`src/src/index.ts` (v1.1.0, with the maternal-profile existence check).
Definitions carrying a `V1` suffix embed the former, `V2` the latter.
-/

set_option maxRecDepth 4000

/-- Association-list model of a `StableBTreeMap<string, α>` collection. -/
abbrev SMap (α : Type) : Type := List (String × α)

/-- Point lookup, `storage.get(key)`: returns the value bound to the key. -/
def mget {α : Type} (m : SMap α) (k : String) : Option α :=
  (List.find? (fun p => p.1 == k) m).map Prod.snd

/-- Insert-or-overwrite, `storage.insert(key, value)`. -/
def mput {α : Type} (m : SMap α) (k : String) (v : α) : SMap α :=
  (k, v) :: List.filter (fun p => p.1 != k) m

theorem mget_mput_self {α : Type} (m : SMap α) (k : String) (v : α) :
    mget (mput m k v) k = some v := by
  simp [mget, mput, List.find?]

theorem length_mput_of_mget_none {α : Type} (m : SMap α) (k : String) (v : α)
    (h : mget m k = none) : (mput m k v).length = m.length + 1 := by
  induction m with
  | nil => simp [mput]
  | cons p t ih =>
    cases hp : (p.1 == k) with
    | true =>
      exfalso
      simp [mget, List.find?, hp] at h
    | false =>
      simp only [mget, List.find?, hp] at h
      have ih' := ih h
      simp only [mput, List.length_cons] at ih' ⊢
      rw [List.filter_cons_of_pos (by simpa using beq_eq_false_iff_ne.mp hp)]
      simp only [List.length_cons] at ih' ⊢
      omega

/-- RiskLevel enum from the source. -/
inductive RiskLevel where
  | LOW
  | MEDIUM
  | HIGH
deriving DecidableEq

/-- Trimester enum from the source. -/
inductive Trimester where
  | FIRST
  | SECOND
  | THIRD
deriving DecidableEq

/-- Error taxonomy of the spec; the HTTP layer renders ValidationError and
PreconditionError as status 400 and NotFoundError as status 404, each with
the carried reason string. -/
inductive ApiError where
  | ValidationError (message : String)
  | NotFoundError (message : String)
  | PreconditionError (message : String)
deriving DecidableEq

/-- HealthcareProvider record (interface in the source). -/
structure HealthcareProvider where
  id : String
  name : String
  specialization : String
  licenseNumber : String
  contactInfo : String
  facilityId : String
  isActive : Bool
  lastUpdated : Int
deriving DecidableEq

/-- MaternalProfile record (interface in the source). -/
structure MaternalProfile where
  id : String
  name : String
  age : Rat
  bloodType : String
  emergencyContact : String
  dueDate : Int
  currentTrimester : Trimester
  riskLevel : RiskLevel
  primaryCareProviderId : String
  createdAt : Int
  lastUpdated : Int
  medicalHistory : List String
  allergies : List String
  isHighRiskPregnancy : Bool
deriving DecidableEq

/-- HealthMetrics record (interface in the source). -/
structure HealthMetrics where
  id : String
  maternalProfileId : String
  recordedAt : Int
  weight : Rat
  bloodPressureSystolic : Rat
  bloodPressureDiastolic : Rat
  bloodSugar : Rat
  hemoglobinLevels : Rat
  fetalHeartRate : Option Rat
  notes : String
  recordedById : String
  isFlaggedForReview : Bool
deriving DecidableEq

/-- PrenatalVisit record (interface in the source; no claim operates on it,
it is carried so that whole-store equalities cover every collection). -/
structure PrenatalVisit where
  id : String
  maternalProfileId : String
  providerId : String
  scheduledDate : Int
  completed : Bool
  visitType : String
  findings : String
  recommendations : String
  nextVisitDate : Option Int
  prescriptions : List String
  followUpRequired : Bool
  cancellationReason : Option String
deriving DecidableEq

/-- HealthAlert record (interface in the source). -/
structure HealthAlert where
  id : String
  maternalProfileId : String
  createdAt : Int
  severity : RiskLevel
  description : String
  recommendedAction : String
  resolved : Bool
  resolvedAt : Option Int
  providerId : String
  resolutionNotes : Option String
  escalationLevel : Rat
deriving DecidableEq

/-- The five StableBTreeMap collections of the service. -/
structure Store where
  maternalProfileStorage : SMap MaternalProfile
  providerStorage : SMap HealthcareProvider
  metricsStorage : SMap HealthMetrics
  visitStorage : SMap PrenatalVisit
  alertStorage : SMap HealthAlert
deriving DecidableEq

/-- Request body of POST /maternal-profiles. Fields that the handler supplies
a default for before the `...req.body` spread are `Option` (present in the
body overrides the default); `dueDateMs` is the millisecond epoch value of
the parsed `req.body.dueDate` date string (valid-date case). -/
structure ProfileInput where
  id : Option String
  name : String
  age : Rat
  bloodType : String
  emergencyContact : String
  dueDateMs : Int
  primaryCareProviderId : String
  currentTrimester : Option Trimester
  riskLevel : Option RiskLevel
  createdAt : Option Int
  lastUpdated : Option Int
  medicalHistory : Option (List String)
  allergies : Option (List String)
  isHighRiskPregnancy : Option Bool
deriving DecidableEq

/-- Request body of POST /health-metrics, with the defaulted fields
(`id`, `recordedAt`, `isFlaggedForReview`) as `Option`. -/
structure MetricsInput where
  id : Option String
  maternalProfileId : String
  recordedAt : Option Int
  weight : Rat
  bloodPressureSystolic : Rat
  bloodPressureDiastolic : Rat
  bloodSugar : Rat
  hemoglobinLevels : Rat
  fetalHeartRate : Option Rat
  notes : String
  recordedById : String
  isFlaggedForReview : Option Bool
deriving DecidableEq

/-- The slice of a TS Partial HealthMetrics value that validateHealthMetrics
reads: each numeric field may be absent (undefined). -/
structure MetricsFields where
  bloodPressureSystolic : Option Rat
  bloodPressureDiastolic : Option Rat
  bloodSugar : Option Rat
deriving DecidableEq

/-- View of a full request body as the partial record the validator reads. -/
def MetricsInput.toFields (i : MetricsInput) : MetricsFields :=
  ⟨some i.bloodPressureSystolic, some i.bloodPressureDiastolic, some i.bloodSugar⟩

/-- JS guard `metrics.f && (metrics.f < lo || metrics.f > hi)`: an absent
(undefined) field is falsy, the value 0 is falsy, otherwise the range test
runs. -/
def truthyOutside (x : Option Rat) (lo hi : Rat) : Bool :=
  match x with
  | none => false
  | some v => if v = 0 then false else if v < lo ∨ hi < v then true else false

/-- validateHealthMetrics from src/unnamed/part_000 (v1.0.0): systolic,
diastolic and blood-sugar range checks, first violation wins. -/
def validateHealthMetrics (metrics : MetricsFields) : Option String :=
  if truthyOutside metrics.bloodPressureSystolic 70 190 then
    some "Invalid systolic blood pressure range"
  else if truthyOutside metrics.bloodPressureDiastolic 40 120 then
    some "Invalid diastolic blood pressure range"
  else if truthyOutside metrics.bloodSugar 30 500 then
    some "Invalid blood sugar range"
  else none

/-- validateHealthMetrics from src/src/index.ts (v1.1.0), which omits the
blood-sugar check. -/
def validateHealthMetricsV2 (metrics : MetricsFields) : Option String :=
  if truthyOutside metrics.bloodPressureSystolic 70 190 then
    some "Invalid systolic blood pressure range"
  else if truthyOutside metrics.bloodPressureDiastolic 40 120 then
    some "Invalid diastolic blood pressure range"
  else none

/-- Leading and trailing whitespace removal on a character list. -/
def trimChars (l : List Char) : List Char :=
  ((l.dropWhile Char.isWhitespace).reverse.dropWhile Char.isWhitespace).reverse

/-- Executable model of the JS string trim() used by validateProfile. -/
def strTrim (s : String) : String := String.mk (trimChars s.data)

/-- The fixed 8-value blood type set of validateProfile. -/
def bloodTypes : List String := ["A+", "A-", "B+", "B-", "AB+", "AB-", "O+", "O-"]

/-- validateProfile from src/unnamed/part_000: an empty or whitespace name is
caught by the trimmed-length test, age 0 is falsy in the `!profile.age`
guard and rejected by the same branch as the range test, an empty blood
type is not in the fixed list. -/
def validateProfile (profile : ProfileInput) : Option String :=
  if (strTrim profile.name).length < 2 then
    some "Name must be at least 2 characters long"
  else if profile.age = 0 ∨ profile.age < 16 ∨ 60 < profile.age then
    some "Age must be between 16 and 60"
  else if (bloodTypes.contains profile.bloodType) = false then
    some "Invalid blood type"
  else none

/-- assessRisk from src/unnamed/part_000: OR of the four clinical
threshold breaches. -/
def assessRisk (metrics : HealthMetrics) : Bool :=
  decide (140 ≤ metrics.bloodPressureSystolic) ||
  decide (90 ≤ metrics.bloodPressureDiastolic) ||
  decide (140 < metrics.bloodSugar) ||
  decide (metrics.hemoglobinLevels < 9)

/-!
Exact model of the JavaScript double-precision values that the timestamp
layer routes through. A JS number is an IEEE-754 binary64 value; every
operation rounds its exact result to the nearest representable value,
ties to even: for a value in the binade [2 ^ t, 2 ^ (t + 1)) that is
rounding to the grid of multiples of 2 ^ (t - 52). All quantities in this
layer are integers or integer quotients, so the model is phrased over Int
(a tie that rounds up onto the next binade lands on a value representable
there as well, so using the grid of the truncated quotient's binade gives
the binary64 result for every value arising here, where exact quotients
keep a distance of at least 10 ^ -6 from binade boundaries).
-/

/-- Fuel-driven floor of log2 (fuel 128 covers every value below 2^128). -/
def log2fuel : Nat → Nat → Nat
  | 0, _ => 0
  | fuel + 1, n => if n ≤ 1 then 0 else log2fuel fuel (n / 2) + 1

/-- Round the exact quotient a / b (with b positive) to the nearest
integer, ties to the even integer. -/
def rhe (a b : Int) : Int :=
  let n := Int.fdiv a b
  let r := a - n * b
  if 2 * r < b then n
  else if b < 2 * r then n + 1
  else if n % 2 = 0 then n else n + 1

/-- Nearest binary64 value to a nonnegative integer: below 2^53 every
integer is representable; above, round to the grid of the integer's
binade, ties to even. -/
def roundDoubleNonneg (x : Int) : Int :=
  let e : Int := (log2fuel 128 x.toNat : Int) - 52
  if 0 ≤ e then rhe x (2 ^ e.toNat) * 2 ^ e.toNat else x

/-- Number(bigint): the nearest binary64 value to an integer. -/
def roundDoubleInt (x : Int) : Int :=
  if 0 ≤ x then roundDoubleNonneg x else - roundDoubleNonneg (-x)

/-- For a nonnegative binary64 integer value d, the JS evaluation of
`new Date(d / 1_000_000).getTime()`: the exact quotient d / 10^6 is
rounded to the binary64 grid of its binade (exponent taken from the
truncated quotient), and the Date constructor truncates the resulting
millisecond value toward zero (ToIntegerOrInfinity). -/
def displayMsNonneg (d : Int) : Int :=
  let k : Int := (log2fuel 128 (Int.fdiv d 1000000).toNat : Int) - 52
  if 0 ≤ k then rhe d (1000000 * 2 ^ k.toNat) * 2 ^ k.toNat
  else Int.fdiv (rhe (d * 2 ^ (-k).toNat) 1000000) (2 ^ (-k).toNat)

/-- Stored nanosecond value of the v1.0.0 profile handler:
`BigInt(new Date(req.body.dueDate).getTime() * 1_000_000)`. The
multiplication happens in JS number space (getTime() is an exact integer
below 2^53, the product in general is not), so its result is rounded to
a double before the exact BigInt conversion. -/
def storeNsV1 (ms : Int) : Int := roundDoubleInt (ms * 1000000)

/-- Stored nanosecond value of parseDateToBigInt in src/src/index.ts
(valid-date case): `BigInt(date.getTime()) * 1_000_000n`, an exact
bigint multiplication. -/
def parseDateToBigIntNs (ms : Int) : Int := ms * 1000000

/-- Millisecond value rendered by the display path of serializeProfile and
its siblings: `new Date(Number(stored) / 1_000_000).toISOString()`.
`Number(stored)` rounds the bigint to a double, the division rounds its
exact quotient to a double, and the Date constructor truncates the
resulting millisecond value toward zero; every step is symmetric under
negation. Within the valid Date range the ISO-8601 string determines and
is determined by this integer. -/
def displayMs (ns : Int) : Int :=
  let d := roundDoubleInt ns
  if 0 ≤ d then displayMsNonneg d else - displayMsNonneg (-d)

/-- The HealthMetrics record built by the POST /health-metrics handlers:
`{ id: uuidv4(), recordedAt: BigInt(ic.time()), isFlaggedForReview: false,
...req.body }` — a field present in the body overrides the default ahead
of it. -/
def metricsFromInput (input : MetricsInput) (freshId : String) (now : Int) : HealthMetrics :=
  { id := input.id.getD freshId
    maternalProfileId := input.maternalProfileId
    recordedAt := input.recordedAt.getD now
    weight := input.weight
    bloodPressureSystolic := input.bloodPressureSystolic
    bloodPressureDiastolic := input.bloodPressureDiastolic
    bloodSugar := input.bloodSugar
    hemoglobinLevels := input.hemoglobinLevels
    fetalHeartRate := input.fetalHeartRate
    notes := input.notes
    recordedById := input.recordedById
    isFlaggedForReview := input.isFlaggedForReview.getD false }

/-- createHighRiskAlert from src/unnamed/part_000: the alert record it
builds before inserting it into alertStorage under a fresh uuid. -/
def createHighRiskAlert (metrics : HealthMetrics) (freshAlertId : String) (now : Int) : HealthAlert :=
  { id := freshAlertId
    maternalProfileId := metrics.maternalProfileId
    createdAt := now
    severity := RiskLevel.HIGH
    description := "Abnormal health metrics detected"
    recommendedAction := "Immediate medical review required"
    resolved := false
    resolvedAt := none
    providerId := metrics.recordedById
    resolutionNotes := none
    escalationLevel := 1 }

/-- POST /health-metrics handler of src/unnamed/part_000 (v1.0.0):
validate, build the record, run assessRisk, on high risk set the review
flag and insert an alert, then insert the metrics record. Every error
return leaves the store untouched. -/
def recordMetricsV1 (input : MetricsInput) (freshId freshAlertId : String)
    (now : Int) (st : Store) : Except ApiError HealthMetrics × Store :=
  match validateHealthMetrics (MetricsInput.toFields input) with
  | some e => (Except.error (ApiError.ValidationError e), st)
  | none =>
    let base := metricsFromInput input freshId now
    if assessRisk base then
      let metrics := { base with isFlaggedForReview := true }
      let st1 := { st with
        alertStorage := mput st.alertStorage freshAlertId
          (createHighRiskAlert metrics freshAlertId now) }
      (Except.ok metrics, { st1 with metricsStorage := mput st1.metricsStorage metrics.id metrics })
    else
      (Except.ok base, { st with metricsStorage := mput st.metricsStorage base.id base })

/-- POST /health-metrics handler of src/src/index.ts (v1.1.0): the
maternal profile must resolve before anything else, then validation (the
v2 validator without the blood-sugar rule), then the insert; this variant
has no risk assessment and creates no alert. -/
def recordMetricsV2 (input : MetricsInput) (freshId : String)
    (now : Int) (st : Store) : Except ApiError HealthMetrics × Store :=
  match mget st.maternalProfileStorage input.maternalProfileId with
  | none => (Except.error (ApiError.NotFoundError "Maternal profile not found"), st)
  | some _ =>
    match validateHealthMetricsV2 (MetricsInput.toFields input) with
    | some e => (Except.error (ApiError.ValidationError e), st)
    | none =>
      let metrics := metricsFromInput input freshId now
      (Except.ok metrics, { st with metricsStorage := mput st.metricsStorage metrics.id metrics })

/-- The MaternalProfile record built by the v1.0.0 POST /maternal-profiles
handler: defaults, then the `...req.body` spread, then `dueDate` is
overwritten with the converted date (so a body dueDate never survives as
is, while a body id, riskLevel or currentTrimester overrides its
default). -/
def profileFromInput (input : ProfileInput) (freshId : String) (now : Int) : MaternalProfile :=
  { id := input.id.getD freshId
    name := input.name
    age := input.age
    bloodType := input.bloodType
    emergencyContact := input.emergencyContact
    dueDate := storeNsV1 input.dueDateMs
    currentTrimester := input.currentTrimester.getD Trimester.FIRST
    riskLevel := input.riskLevel.getD RiskLevel.LOW
    primaryCareProviderId := input.primaryCareProviderId
    createdAt := input.createdAt.getD now
    lastUpdated := input.lastUpdated.getD now
    medicalHistory := input.medicalHistory.getD []
    allergies := input.allergies.getD []
    isHighRiskPregnancy := input.isHighRiskPregnancy.getD false }

/-- POST /maternal-profiles handler of src/unnamed/part_000 (v1.0.0):
field validation first, then the primary-care provider must resolve and
be active, then the profile is built and inserted. Every error return
leaves the store untouched. -/
def createProfileV1 (input : ProfileInput) (freshId : String)
    (now : Int) (st : Store) : Except ApiError MaternalProfile × Store :=
  match validateProfile input with
  | some e => (Except.error (ApiError.ValidationError e), st)
  | none =>
    match mget st.providerStorage input.primaryCareProviderId with
    | none => (Except.error (ApiError.NotFoundError "Healthcare provider not found"), st)
    | some provider =>
      if provider.isActive then
        let profile := profileFromInput input freshId now
        (Except.ok profile,
          { st with maternalProfileStorage := mput st.maternalProfileStorage profile.id profile })
      else
        (Except.error (ApiError.PreconditionError "Selected healthcare provider is not active"), st)

/-- Modelled from the spec: `resolveAlert(id, notes) -> Alert | NotFoundError`
is named in section 6 of the spec but absent from the source files. Per the
spec, an alert found under the id and still Open transitions to Resolved
with a non-null resolvedAt and the resolution notes; Resolved is terminal,
and of the two behaviors the spec allows for an already-Resolved alert
(rejected or no-op) this model documents and picks the no-op, returning
the alert unchanged; an id that does not resolve yields NotFoundError. -/
def resolveAlert (st : Store) (id notes : String) (now : Int) :
    Except ApiError HealthAlert × Store :=
  match mget st.alertStorage id with
  | none => (Except.error (ApiError.NotFoundError "Alert not found"), st)
  | some alert =>
    if alert.resolved then
      (Except.ok alert, st)
    else
      let resolvedAlert := { alert with
        resolved := true
        resolvedAt := some now
        resolutionNotes := some notes }
      (Except.ok resolvedAlert, { st with alertStorage := mput st.alertStorage id resolvedAlert })

/-- Spec-side reading of the metrics validation rule: the field is present
with a nonzero value lying outside the closed range. -/
def presentNonzeroOutside (x : Option Rat) (lo hi : Rat) : Prop :=
  ∃ v, x = some v ∧ v ≠ 0 ∧ (v < lo ∨ hi < v)

/-- Store with all five collections empty. -/
def emptyStore : Store := ⟨[], [], [], [], []⟩

/-- An active healthcare provider on file. -/
def drActive : HealthcareProvider :=
  ⟨"dr1", "Dr Achieng", "Obstetrics", "L-100", "dr@clinic", "fac1", true, 0⟩

/-- The same provider with isActive = false. -/
def drInactive : HealthcareProvider := { drActive with isActive := false }

/-- Store whose provider collection holds the active provider. -/
def stActive : Store := { emptyStore with providerStorage := [("dr1", drActive)] }

/-- Store whose provider collection holds the inactive provider. -/
def stInactive : Store := { emptyStore with providerStorage := [("dr1", drInactive)] }

/-- A well-formed profile request referencing provider dr1, supplying none
of the defaulted fields. -/
def pin0 : ProfileInput :=
  { id := none, name := "Jane Doe", age := 28, bloodType := "O+"
    emergencyContact := "0700", dueDateMs := 1000, primaryCareProviderId := "dr1"
    currentTrimester := none, riskLevel := none, createdAt := none
    lastUpdated := none, medicalHistory := none, allergies := none
    isHighRiskPregnancy := none }

/-- The same request with a one-character name, which field validation
rejects. -/
def pinBadName : ProfileInput := { pin0 with name := "J" }

/-- The same request carrying a client-chosen id in the body. -/
def pinWithId : ProfileInput := { pin0 with id := some "client-id" }

/-- A metrics request with every vital inside the normal thresholds,
supplying none of the defaulted fields. -/
def minNormal : MetricsInput :=
  { id := none, maternalProfileId := "mp1", recordedAt := none, weight := 60
    bloodPressureSystolic := 120, bloodPressureDiastolic := 80, bloodSugar := 95
    hemoglobinLevels := 12, fetalHeartRate := none, notes := ""
    recordedById := "dr1", isFlaggedForReview := none }

/-- The normal request with a high-risk systolic reading of 150. -/
def minHigh : MetricsInput := { minNormal with bloodPressureSystolic := 150 }

/-- The normal request whose body also carries isFlaggedForReview = true. -/
def minFlagged : MetricsInput := { minNormal with isFlaggedForReview := some true }

/-- The normal request whose body also carries a client-chosen id. -/
def minClientId : MetricsInput := { minNormal with id := some "client-id" }

/-- Stored record produced for minNormal with fresh id m1 at time 7. -/
def mNormal0 : HealthMetrics := metricsFromInput minNormal "m1" 7

/-- Store state after recording minNormal into the empty store. -/
def stAfterNormal : Store := { emptyStore with metricsStorage := [("m1", mNormal0)] }

/-- Stored profile produced for pin0 with fresh id p1 at time 7. -/
def pStored0 : MaternalProfile := profileFromInput pin0 "p1" 7

/-- Store state after creating pStored0 on top of stActive. -/
def stAfterProfile : Store :=
  { stActive with maternalProfileStorage := [("p1", pStored0)] }

/-- An Open alert on file under id a1. -/
def alertOpen : HealthAlert :=
  ⟨"a1", "mp1", 0, RiskLevel.HIGH, "Abnormal health metrics detected",
    "Immediate medical review required", false, none, "dr1", none, 1⟩

/-- The same alert already Resolved. -/
def alertDone : HealthAlert := { alertOpen with resolved := true, resolvedAt := some 3 }

/-- Store holding the Open alert. -/
def stAlertOpen : Store := { emptyStore with alertStorage := [("a1", alertOpen)] }

/-- Store holding the Resolved alert. -/
def stAlertDone : Store := { emptyStore with alertStorage := [("a1", alertDone)] }

theorem recordMetricsV1_ok_high (input : MetricsInput) (freshId freshAlertId : String)
    (now : Int) (st : Store)
    (hv : validateHealthMetrics (MetricsInput.toFields input) = none)
    (hr : assessRisk (metricsFromInput input freshId now) = true) :
    recordMetricsV1 input freshId freshAlertId now st =
      (Except.ok { metricsFromInput input freshId now with isFlaggedForReview := true },
        { st with
          alertStorage := mput st.alertStorage freshAlertId
            (createHighRiskAlert
              { metricsFromInput input freshId now with isFlaggedForReview := true }
              freshAlertId now)
          metricsStorage := mput st.metricsStorage (metricsFromInput input freshId now).id
            { metricsFromInput input freshId now with isFlaggedForReview := true } }) := by
  simp [recordMetricsV1, hv, hr]

theorem recordMetricsV1_ok_normal (input : MetricsInput) (freshId freshAlertId : String)
    (now : Int) (st : Store)
    (hv : validateHealthMetrics (MetricsInput.toFields input) = none)
    (hr : assessRisk (metricsFromInput input freshId now) = false) :
    recordMetricsV1 input freshId freshAlertId now st =
      (Except.ok (metricsFromInput input freshId now),
        { st with
          metricsStorage := mput st.metricsStorage (metricsFromInput input freshId now).id
            (metricsFromInput input freshId now) }) := by
  simp [recordMetricsV1, hv, hr]

theorem createProfileV1_ok (input : ProfileInput) (freshId : String) (now : Int)
    (st : Store) (provider : HealthcareProvider)
    (hv : validateProfile input = none)
    (hp : mget st.providerStorage input.primaryCareProviderId = some provider)
    (ha : provider.isActive = true) :
    createProfileV1 input freshId now st =
      (Except.ok (profileFromInput input freshId now),
        { st with
          maternalProfileStorage := mput st.maternalProfileStorage
            (profileFromInput input freshId now).id (profileFromInput input freshId now) }) := by
  simp [createProfileV1, hv, hp, ha]

/-- C1: assessRisk returns high-risk (true) exactly when systolic BP is at
least 140, or diastolic BP is at least 90, or blood sugar exceeds 140, or
hemoglobin is below 9; for every metrics record breaching none of these
thresholds it returns normal (false). -/
theorem assessRisk_high_iff (m : HealthMetrics) :
    (assessRisk m = true ↔
      (140 ≤ m.bloodPressureSystolic ∨ 90 ≤ m.bloodPressureDiastolic ∨
        140 < m.bloodSugar ∨ m.hemoglobinLevels < 9)) ∧
    (assessRisk m = false ↔
      ¬ (140 ≤ m.bloodPressureSystolic ∨ 90 ≤ m.bloodPressureDiastolic ∨
        140 < m.bloodSugar ∨ m.hemoglobinLevels < 9)) := by
  unfold assessRisk
  constructor
  · simp [or_assoc]
  · rw [Bool.eq_false_iff]
    simp [or_assoc]

/-- C2 counterexample: the request body spread overrides the
isFlaggedForReview default, so a normal-risk reading whose body carries
isFlaggedForReview = true is stored flagged even though assessRisk
returns normal — the claimed equivalence fails on this accepted input. -/
theorem recordMetrics_flag_override_cex :
    (recordMetricsV1 minFlagged "m1" "a1" 7 emptyStore).1.toOption.map
      (fun m => (m.isFlaggedForReview, assessRisk m)) = some (true, false) := by
  rfl

/-- C2 amended: for every accepted metrics input, high risk forces the
stored record's isFlaggedForReview to true; and when the input does not
itself supply isFlaggedForReview, the stored flag is true exactly when
assessRisk of the stored record is high-risk. -/
theorem recordMetrics_flag_iff_risk (input : MetricsInput) (freshId freshAlertId : String)
    (now : Int) (st : Store) (m : HealthMetrics) (st' : Store)
    (hok : recordMetricsV1 input freshId freshAlertId now st = (Except.ok m, st')) :
    (assessRisk m = true → m.isFlaggedForReview = true) ∧
    (input.isFlaggedForReview = none →
      (m.isFlaggedForReview = true ↔ assessRisk m = true)) := by
  cases hval : validateHealthMetrics (MetricsInput.toFields input) with
  | some e =>
    exfalso
    unfold recordMetricsV1 at hok
    rw [hval] at hok
    simp at hok
  | none =>
    by_cases hr : assessRisk (metricsFromInput input freshId now) = true
    · rw [recordMetricsV1_ok_high input freshId freshAlertId now st hval hr] at hok
      simp only [Prod.mk.injEq, Except.ok.injEq] at hok
      obtain ⟨hm, -⟩ := hok
      subst hm
      exact ⟨fun _ => rfl, fun _ => ⟨fun _ => hr, fun _ => rfl⟩⟩
    · have hr' : assessRisk (metricsFromInput input freshId now) = false := by
        revert hr; cases assessRisk (metricsFromInput input freshId now) <;> simp
      rw [recordMetricsV1_ok_normal input freshId freshAlertId now st hval hr'] at hok
      simp only [Prod.mk.injEq, Except.ok.injEq] at hok
      obtain ⟨hm, -⟩ := hok
      subst hm
      constructor
      · intro hcontra
        exact absurd hcontra (by simp [hr'])
      · intro hnone
        have hflag : (metricsFromInput input freshId now).isFlaggedForReview = false := by
          simp [metricsFromInput, hnone]
        rw [hflag, hr']

/-- C2 witness: the normal reading minNormal, which supplies no
isFlaggedForReview, is stored with the flag equal to its (normal) risk
verdict. -/
theorem recordMetrics_flag_iff_risk_witness :
    minNormal.isFlaggedForReview = none ∧
    (mNormal0.isFlaggedForReview = true ↔ assessRisk mNormal0 = true) :=
  ⟨rfl,
    (recordMetrics_flag_iff_risk minNormal "m1" "a1" 7 emptyStore mNormal0
      stAfterNormal rfl).2 rfl⟩

/-- C3: for every accepted metrics input, a high-risk assessment inserts
exactly one new HealthAlert — severity HIGH, unresolved, resolvedAt null,
escalation level 1, owned by the metrics' maternalProfileId, assigned to
the recording provider (recordedById) — and a normal assessment leaves
the alert collection unchanged. Proved against the v1.0.0 handler, the
variant housing the risk engine. -/
theorem recordMetrics_highRisk_alert (input : MetricsInput) (freshId freshAlertId : String)
    (now : Int) (st : Store)
    (hv : validateHealthMetrics (MetricsInput.toFields input) = none) :
    (assessRisk (metricsFromInput input freshId now) = true →
      ∃ a, (recordMetricsV1 input freshId freshAlertId now st).2.alertStorage
            = mput st.alertStorage freshAlertId a ∧
        a.severity = RiskLevel.HIGH ∧ a.resolved = false ∧ a.resolvedAt = none ∧
        a.escalationLevel = 1 ∧ a.maternalProfileId = input.maternalProfileId ∧
        a.providerId = input.recordedById ∧
        (mget st.alertStorage freshAlertId = none →
          ((recordMetricsV1 input freshId freshAlertId now st).2.alertStorage).length
            = st.alertStorage.length + 1)) ∧
    (assessRisk (metricsFromInput input freshId now) = false →
      (recordMetricsV1 input freshId freshAlertId now st).2.alertStorage
        = st.alertStorage) := by
  constructor
  · intro hr
    refine ⟨createHighRiskAlert
        { metricsFromInput input freshId now with isFlaggedForReview := true }
        freshAlertId now, ?_, rfl, rfl, rfl, rfl, rfl, rfl, ?_⟩
    · rw [recordMetricsV1_ok_high input freshId freshAlertId now st hv hr]
    · intro hnone
      rw [recordMetricsV1_ok_high input freshId freshAlertId now st hv hr]
      exact length_mput_of_mget_none st.alertStorage freshAlertId _ hnone
  · intro hr
    rw [recordMetricsV1_ok_normal input freshId freshAlertId now st hv hr]

/-- C3 witness: the reading minHigh (systolic 150) is accepted, assessed
high-risk, and recording it into the empty store inserts exactly the
claimed alert. -/
theorem recordMetrics_highRisk_alert_witness :
    validateHealthMetrics (MetricsInput.toFields minHigh) = none ∧
    assessRisk (metricsFromInput minHigh "m1" 7) = true ∧
    (∃ a, (recordMetricsV1 minHigh "m1" "a1" 7 emptyStore).2.alertStorage
          = mput emptyStore.alertStorage "a1" a ∧
      a.severity = RiskLevel.HIGH ∧ a.resolved = false ∧ a.resolvedAt = none ∧
      a.escalationLevel = 1 ∧ a.maternalProfileId = minHigh.maternalProfileId ∧
      a.providerId = minHigh.recordedById ∧
      (mget emptyStore.alertStorage "a1" = none →
        ((recordMetricsV1 minHigh "m1" "a1" 7 emptyStore).2.alertStorage).length
          = emptyStore.alertStorage.length + 1)) :=
  ⟨rfl, rfl, (recordMetrics_highRisk_alert minHigh "m1" "a1" 7 emptyStore rfl).1 rfl⟩

/-- C4 counterexample: field validation runs before the provider lookup,
so this input with a dangling provider reference but a one-character name
is answered with the validation reason, not with NotFoundError as the
claim requires for every such input. -/
theorem createProfile_error_order_cex :
    mget emptyStore.providerStorage pinBadName.primaryCareProviderId = none ∧
    (createProfileV1 pinBadName "p1" 7 emptyStore).1
      = Except.error (ApiError.ValidationError "Name must be at least 2 characters long") :=
  ⟨rfl, rfl⟩

/-- C4 amended: for every profile input that passes field validation, a
primaryCareProviderId resolving to no provider yields NotFoundError and a
provider on file with isActive = false yields PreconditionError, and in
both cases the store — every collection — is returned unchanged. Proved
against the v1.0.0 handler, the variant housing the provider check. -/
theorem createProfile_provider_errors (input : ProfileInput) (freshId : String)
    (now : Int) (st : Store) (hv : validateProfile input = none) :
    (mget st.providerStorage input.primaryCareProviderId = none →
      createProfileV1 input freshId now st
        = (Except.error (ApiError.NotFoundError "Healthcare provider not found"), st)) ∧
    (∀ provider, mget st.providerStorage input.primaryCareProviderId = some provider →
      provider.isActive = false →
      createProfileV1 input freshId now st
        = (Except.error (ApiError.PreconditionError
            "Selected healthcare provider is not active"), st)) := by
  constructor
  · intro h
    simp [createProfileV1, hv, h]
  · intro provider h ha
    simp [createProfileV1, hv, h, ha]

/-- C4 witness: the valid input pin0 gets NotFoundError against the empty
provider collection and PreconditionError against the inactive provider,
with the store unchanged both times. -/
theorem createProfile_provider_errors_witness :
    validateProfile pin0 = none ∧
    createProfileV1 pin0 "p1" 7 emptyStore
      = (Except.error (ApiError.NotFoundError "Healthcare provider not found"), emptyStore) ∧
    createProfileV1 pin0 "p1" 7 stInactive
      = (Except.error (ApiError.PreconditionError
          "Selected healthcare provider is not active"), stInactive) :=
  ⟨rfl, (createProfile_provider_errors pin0 "p1" 7 emptyStore rfl).1 rfl,
    (createProfile_provider_errors pin0 "p1" 7 stInactive rfl).2 drInactive rfl rfl⟩

/-- C5: in the v1.1.0 handler (src/src/index.ts), the variant implementing
the spec's recordMetrics contract, a metrics input whose maternalProfileId
does not resolve is answered with NotFoundError and the store — every
collection, so neither a metrics record nor an alert — is returned
unchanged. -/
theorem recordMetrics_profile_not_found (input : MetricsInput) (freshId : String)
    (now : Int) (st : Store)
    (h : mget st.maternalProfileStorage input.maternalProfileId = none) :
    recordMetricsV2 input freshId now st
      = (Except.error (ApiError.NotFoundError "Maternal profile not found"), st) := by
  simp [recordMetricsV2, h]

/-- C5 witness: recording minNormal against the empty store. -/
theorem recordMetrics_profile_not_found_witness :
    mget emptyStore.maternalProfileStorage minNormal.maternalProfileId = none ∧
    recordMetricsV2 minNormal "m1" 7 emptyStore
      = (Except.error (ApiError.NotFoundError "Maternal profile not found"), emptyStore) :=
  ⟨rfl, recordMetrics_profile_not_found minNormal "m1" 7 emptyStore rfl⟩

/-- C6: every valid profile input referencing an active provider succeeds,
and when it supplies neither riskLevel nor currentTrimester the stored
profile defaults them to LOW and FIRST. Proved against the v1.0.0
handler, the variant that sets these defaults. -/
theorem createProfile_defaults (input : ProfileInput) (freshId : String) (now : Int)
    (st : Store) (provider : HealthcareProvider)
    (hv : validateProfile input = none)
    (hp : mget st.providerStorage input.primaryCareProviderId = some provider)
    (ha : provider.isActive = true)
    (hrisk : input.riskLevel = none) (htri : input.currentTrimester = none) :
    ∃ p, (createProfileV1 input freshId now st).1 = Except.ok p ∧
      p.riskLevel = RiskLevel.LOW ∧ p.currentTrimester = Trimester.FIRST ∧
      mget (createProfileV1 input freshId now st).2.maternalProfileStorage p.id = some p := by
  refine ⟨profileFromInput input freshId now, ?_, ?_, ?_, ?_⟩
  · rw [createProfileV1_ok input freshId now st provider hv hp ha]
  · simp [profileFromInput, hrisk]
  · simp [profileFromInput, htri]
  · rw [createProfileV1_ok input freshId now st provider hv hp ha]
    exact mget_mput_self _ _ _

/-- C6 witness: pin0 against the store holding the active provider. -/
theorem createProfile_defaults_witness :
    validateProfile pin0 = none ∧ drActive.isActive = true ∧
    pin0.riskLevel = none ∧ pin0.currentTrimester = none ∧
    (∃ p, (createProfileV1 pin0 "p1" 7 stActive).1 = Except.ok p ∧
      p.riskLevel = RiskLevel.LOW ∧ p.currentTrimester = Trimester.FIRST ∧
      mget (createProfileV1 pin0 "p1" 7 stActive).2.maternalProfileStorage p.id = some p) :=
  ⟨rfl, rfl, rfl, rfl,
    createProfile_defaults pin0 "p1" 7 stActive drActive rfl rfl rfl rfl rfl⟩

theorem truthyOutside_eq_true_iff (x : Option Rat) (lo hi : Rat) :
    truthyOutside x lo hi = true ↔ presentNonzeroOutside x lo hi := by
  cases x with
  | none => simp [truthyOutside, presentNonzeroOutside]
  | some v =>
    by_cases h0 : v = 0
    · simp [truthyOutside, presentNonzeroOutside, h0]
    · by_cases hout : v < lo ∨ hi < v
      · simp [truthyOutside, presentNonzeroOutside, h0, hout]
      · simp [truthyOutside, presentNonzeroOutside, h0, hout]

/-- C7 counterexample: a present systolic value of 0 lies outside
[70, 190], yet validateHealthMetrics accepts the record — the JS guard
`metrics.bloodPressureSystolic && ...` treats the falsy value 0 like an
absent field, so the claimed equivalence fails at this input. -/
theorem validateHealthMetrics_zero_cex :
    validateHealthMetrics ⟨some 0, none, none⟩ = none ∧
    ((0 : Rat) < 70 ∨ 190 < (0 : Rat)) :=
  ⟨rfl, Or.inl (by norm_num)⟩

/-- C7 amended: validateHealthMetrics rejects exactly the inputs with a
present nonzero systolic outside [70, 190], or a present nonzero
diastolic outside [40, 120], or a present nonzero blood sugar outside
[30, 500]; an omitted or zero-valued field never causes rejection, and
the first violated rule's reason string is returned. -/
theorem validateHealthMetrics_characterization (m : MetricsFields) :
    (validateHealthMetrics m = some "Invalid systolic blood pressure range" ↔
      presentNonzeroOutside m.bloodPressureSystolic 70 190) ∧
    (validateHealthMetrics m = some "Invalid diastolic blood pressure range" ↔
      (¬ presentNonzeroOutside m.bloodPressureSystolic 70 190 ∧
        presentNonzeroOutside m.bloodPressureDiastolic 40 120)) ∧
    (validateHealthMetrics m = some "Invalid blood sugar range" ↔
      (¬ presentNonzeroOutside m.bloodPressureSystolic 70 190 ∧
        ¬ presentNonzeroOutside m.bloodPressureDiastolic 40 120 ∧
        presentNonzeroOutside m.bloodSugar 30 500)) ∧
    (validateHealthMetrics m = none ↔
      (¬ presentNonzeroOutside m.bloodPressureSystolic 70 190 ∧
        ¬ presentNonzeroOutside m.bloodPressureDiastolic 40 120 ∧
        ¬ presentNonzeroOutside m.bloodSugar 30 500)) := by
  have e1 := truthyOutside_eq_true_iff m.bloodPressureSystolic 70 190
  have e2 := truthyOutside_eq_true_iff m.bloodPressureDiastolic 40 120
  have e3 := truthyOutside_eq_true_iff m.bloodSugar 30 500
  cases h1 : truthyOutside m.bloodPressureSystolic 70 190 <;>
    cases h2 : truthyOutside m.bloodPressureDiastolic 40 120 <;>
      cases h3 : truthyOutside m.bloodSugar 30 500 <;>
        simp [validateHealthMetrics, h1, h2, h3, ← e1, ← e2, ← e3]

/-- C8: evaluation of the code at the failing input. For the
millisecond-resolution date 2008-01-10T21:20:00.002Z (epoch millisecond
1200000000002), the stored nanosecond bigint is exact, but the display
path rounds it through a binary64 Number to 1200000000001999872, the
division by 1,000,000 rounds to 1200000000001.999755859375, and the Date
truncation renders millisecond 1200000000001 — one millisecond early, so
the claimed exact round-trip fails; the v1.0.0 store path (number-space
multiplication) loses the same date already at storage time. -/
theorem displayMs_roundtrip_fails :
    parseDateToBigIntNs 1200000000002 = 1200000000002000000 ∧
    roundDoubleInt (parseDateToBigIntNs 1200000000002) = 1200000000001999872 ∧
    displayMs (parseDateToBigIntNs 1200000000002) = 1200000000001 ∧
    displayMs (parseDateToBigIntNs 1200000000002) ≠ 1200000000002 ∧
    storeNsV1 1200000000002 = 1200000000001999872 ∧
    displayMs (storeNsV1 1200000000002) ≠ 1200000000002 := by
  refine ⟨by decide, by decide, by decide, by decide, by decide, by decide⟩

/-- C9 counterexample: a client-supplied id field in the request body
survives the spread and becomes the stored record's id, displacing the
fresh generator id. -/
theorem storedId_client_override_cex :
    (recordMetricsV1 minClientId "fresh-id" "a1" 7 emptyStore).1.toOption.map
      (fun m => m.id) = some "client-id" ∧
    "client-id" ≠ "fresh-id" :=
  ⟨rfl, by decide⟩

/-- C9 amended: when the input supplies no id field, the stored record's
identifier is exactly the fresh identifier produced by the generator, for
metrics recording and for profile creation alike; an input that does
supply an id overrides the generated one. -/
theorem storedId_fresh_when_absent :
    (∀ input freshId freshAlertId now st m st', input.id = none →
      recordMetricsV1 input freshId freshAlertId now st = (Except.ok m, st') →
      m.id = freshId) ∧
    (∀ input freshId now st p st', input.id = none →
      createProfileV1 input freshId now st = (Except.ok p, st') →
      p.id = freshId) := by
  constructor
  · intro input freshId freshAlertId now st m st' hid hok
    cases hval : validateHealthMetrics (MetricsInput.toFields input) with
    | some e =>
      exfalso
      unfold recordMetricsV1 at hok
      rw [hval] at hok
      simp at hok
    | none =>
      by_cases hr : assessRisk (metricsFromInput input freshId now) = true
      · rw [recordMetricsV1_ok_high input freshId freshAlertId now st hval hr] at hok
        simp only [Prod.mk.injEq, Except.ok.injEq] at hok
        obtain ⟨hm, -⟩ := hok
        subst hm
        simp [metricsFromInput, hid]
      · have hr' : assessRisk (metricsFromInput input freshId now) = false := by
          revert hr; cases assessRisk (metricsFromInput input freshId now) <;> simp
        rw [recordMetricsV1_ok_normal input freshId freshAlertId now st hval hr'] at hok
        simp only [Prod.mk.injEq, Except.ok.injEq] at hok
        obtain ⟨hm, -⟩ := hok
        subst hm
        simp [metricsFromInput, hid]
  · intro input freshId now st p st' hid hok
    cases hval : validateProfile input with
    | some e =>
      exfalso
      unfold createProfileV1 at hok
      rw [hval] at hok
      simp at hok
    | none =>
      cases hp : mget st.providerStorage input.primaryCareProviderId with
      | none =>
        exfalso
        unfold createProfileV1 at hok
        rw [hval, hp] at hok
        simp at hok
      | some provider =>
        cases hact : provider.isActive with
        | false =>
          exfalso
          unfold createProfileV1 at hok
          rw [hval, hp] at hok
          simp [hact] at hok
        | true =>
          rw [createProfileV1_ok input freshId now st provider hval hp hact] at hok
          simp only [Prod.mk.injEq, Except.ok.injEq] at hok
          obtain ⟨hm, -⟩ := hok
          subst hm
          simp [profileFromInput, hid]

/-- C9 witness: minNormal and pin0 supply no id, and the records they
store carry the fresh generator ids m1 and p1. -/
theorem storedId_fresh_when_absent_witness :
    minNormal.id = none ∧ mNormal0.id = "m1" ∧
    pin0.id = none ∧ pStored0.id = "p1" :=
  ⟨rfl,
    storedId_fresh_when_absent.1 minNormal "m1" "a1" 7 emptyStore mNormal0
      stAfterNormal rfl rfl,
    rfl,
    storedId_fresh_when_absent.2 pin0 "p1" 7 stActive pStored0 stAfterProfile rfl rfl⟩

/-- C10 (resolveAlert is modelled from the spec, being absent from the
source): an id that does not resolve yields NotFoundError with the store
unchanged; an already-Resolved alert is a documented no-op (Resolved is
terminal); an Open alert transitions to Resolved with resolved = true, a
non-null resolvedAt, the resolution notes attached, and the updated
alert stored back under its id. -/
theorem resolveAlert_spec (st : Store) (id notes : String) (now : Int) :
    (mget st.alertStorage id = none →
      resolveAlert st id notes now
        = (Except.error (ApiError.NotFoundError "Alert not found"), st)) ∧
    (∀ a, mget st.alertStorage id = some a → a.resolved = true →
      resolveAlert st id notes now = (Except.ok a, st)) ∧
    (∀ a, mget st.alertStorage id = some a → a.resolved = false →
      ∃ a', resolveAlert st id notes now
          = (Except.ok a', { st with alertStorage := mput st.alertStorage id a' }) ∧
        a'.resolved = true ∧ a'.resolvedAt = some now ∧ a'.resolvedAt ≠ none ∧
        a'.resolutionNotes = some notes ∧
        mget (resolveAlert st id notes now).2.alertStorage id = some a') := by
  refine ⟨fun h => by simp [resolveAlert, h],
    fun a h hr => by simp [resolveAlert, h, hr], fun a h hr => ?_⟩
  refine ⟨{ a with resolved := true, resolvedAt := some now, resolutionNotes := some notes }, ?_, rfl, rfl, by simp, rfl, ?_⟩
  · simp [resolveAlert, h, hr]
  · simp [resolveAlert, h, hr, mget_mput_self]

/-- C10 witness: a missing id, an already-Resolved alert, and the Open
alert resolved with the spec's scenario notes. -/
theorem resolveAlert_spec_witness :
    resolveAlert emptyStore "a1" "n" 5
      = (Except.error (ApiError.NotFoundError "Alert not found"), emptyStore) ∧
    resolveAlert stAlertDone "a1" "n" 5 = (Except.ok alertDone, stAlertDone) ∧
    (∃ a', resolveAlert stAlertOpen "a1" "reviewed, stable" 5
        = (Except.ok a',
          { stAlertOpen with alertStorage := mput stAlertOpen.alertStorage "a1" a' }) ∧
      a'.resolved = true ∧ a'.resolvedAt = some 5 ∧ a'.resolvedAt ≠ none ∧
      a'.resolutionNotes = some "reviewed, stable" ∧
      mget (resolveAlert stAlertOpen "a1" "reviewed, stable" 5).2.alertStorage "a1"
        = some a') :=
  ⟨(resolveAlert_spec emptyStore "a1" "n" 5).1 rfl,
    (resolveAlert_spec stAlertDone "a1" "n" 5).2.1 alertDone rfl rfl,
    (resolveAlert_spec stAlertOpen "a1" "reviewed, stable" 5).2.2 alertOpen rfl rfl⟩
